import Mathlib

/-!
Verification development for the xhs-publisher browser client.

The repository has four JavaScript source files:
* `src/api/static/app.js` — backend-variant control panel (WebSocket session,
  manual/auto job submission, preview/publish flow);
* `src/docs/app.js`       — cloud-variant control panel (GitHub dispatch
  trigger, localStorage settings store);
* `src/api/static/sw.js`  — backend-variant service worker (resource cache);
* `src/docs/sw.js`        — cloud-variant service worker.

Each definition below is a shallow embedding of the corresponding source
function: DOM writes become record updates on an explicit UI-state record,
network calls become an `Outcome` parameter, timers become scheduled-delay
fields, and the single WebSocket reconnect loop becomes a step relation.
-/

/-! ## String helpers (JS semantics) -/

/-- Does the character list start with the pattern list? -/
def subAt : List Char → List Char → Bool
  | [], _ => true
  | _ :: _, [] => false
  | p :: ps, c :: cs => (p = c) && subAt ps cs

/-- Does the pattern list occur contiguously anywhere in the haystack list? -/
def hasSubList (p : List Char) : List Char → Bool
  | [] => subAt p []
  | c :: cs => subAt p (c :: cs) || hasSubList p cs

/-- JS `s.includes(pat)`. -/
def hasSub (s pat : String) : Bool := hasSubList pat.toList s.toList

/-- JS `a || b` on an optional string: `b` when `a` is absent or empty. -/
def jsOr (a : Option String) (b : String) : String :=
  match a with
  | none => b
  | some s => if s = "" then b else s

/-- JS template interpolation of a possibly-undefined string
(`undefined` prints as the literal text "undefined"). -/
def jsStr : Option String → String
  | none => "undefined"
  | some s => s

/-- JS `s.trim()`: strips whitespace from both ends. -/
def jsTrim (s : String) : String :=
  String.mk
    (((s.toList.dropWhile Char.isWhitespace).reverse.dropWhile
        Char.isWhitespace).reverse)

/-- JS `s.replace(/\n/g, " | ")` as used by `showPreview` on the cover
title: every newline character becomes the three characters " | ". -/
def replaceNewlineSep (s : String) : String :=
  String.mk (List.flatten (s.toList.map
    (fun c => if c = '\n' then [' ', '|', ' '] else [c])))

/-! ## Settings Store (`src/docs/app.js` lines 48–64)

`localStorage` restricted to the two keys the code uses. -/

namespace Cloud

structure Store where
  xhs_repo : Option String
  xhs_pat : Option String
deriving DecidableEq, Repr

structure Settings where
  repo : String
  pat : String
deriving DecidableEq, Repr

/-- `getSettings()` — reads both keys with empty-string defaults. -/
def getSettings (st : Store) : Settings :=
  { repo := st.xhs_repo.getD ""
  , pat := st.xhs_pat.getD "" }

/-- Result of one `saveSettings()` call: the updated store, the toast shown,
and whether `loadRuns()` was invoked at the end. -/
structure SaveRun where
  store : Store
  toast : String
  refreshed : Bool
deriving DecidableEq, Repr

/-- `saveSettings()` — trims both inputs, writes only the non-empty ones,
always toasts, and refreshes the run list only when both are non-empty. -/
def saveSettings (repoRaw patRaw : String) (st : Store) : SaveRun :=
  let repo := jsTrim repoRaw
  let pat := jsTrim patRaw
  let st1 := if repo = "" then st else { st with xhs_repo := some repo }
  let st2 := if pat = "" then st1 else { st1 with xhs_pat := some pat }
  { store := st2
  , toast := "💾 设置已保存"
  , refreshed := repo ≠ "" && pat ≠ "" }

end Cloud

/-! ## Backend-variant UI state (`src/api/static/app.js`)

One record field per DOM location the script writes. -/

namespace App

structure AppState where
  isProcessing : Bool
  btnManualDisabled : Bool
  btnAutoDisabled : Bool
  btnManualLabel : String
  btnAutoLabel : String
  btnPublishDisabled : Bool
  btnPublishLabel : String
  progressWrapperActive : Bool
  logPanelActive : Bool
  previewActive : Bool
  previewTitle : String
  previewSubtitle : String
  carousel : List String
  logs : List String
  progressWidth : Option ℚ
  progressText : String
  toasts : List String
deriving DecidableEq, Repr

/-- Default label of the manual-generate button (`setProcessing(false)`). -/
def manualDefaultLabel : String := "<span>🔍</span> <span>手动生成</span>"

/-- Default label of the auto-publish button (`setProcessing(false)`). -/
def autoDefaultLabel : String := "<span>🚀</span> <span>自动发布</span>"

/-- Spinner label shown on both trigger buttons while processing. -/
def spinnerLabel : String := "<span class=\"spinner\"></span> 处理中..."

/-- Default label of the publish button (`showPreview` reset / error paths). -/
def publishDefaultLabel : String := "✅ 确认发布到小红书"

/-- `setProcessing(state)` — flips the flag, both trigger buttons and the
progress wrapper together. -/
def setProcessing (state : Bool) (s : AppState) : AppState :=
  if state then
    { s with isProcessing := true
           , btnManualDisabled := true
           , btnAutoDisabled := true
           , btnManualLabel := spinnerLabel
           , btnAutoLabel := spinnerLabel
           , progressWrapperActive := true }
  else
    { s with isProcessing := false
           , btnManualDisabled := false
           , btnAutoDisabled := false
           , btnManualLabel := manualDefaultLabel
           , btnAutoLabel := autoDefaultLabel
           , progressWrapperActive := false }

/-- `showToast(message)` — records the transient notice. -/
def showToast (m : String) (s : AppState) : AppState :=
  { s with toasts := s.toasts ++ [m] }

/-- `showLogPanel()`. -/
def showLogPanel (s : AppState) : AppState := { s with logPanelActive := true }

/-- `clearLogs()`. -/
def clearLogs (s : AppState) : AppState := { s with logs := [] }

/-- `appendLog(msg)`. -/
def appendLog (m : String) (s : AppState) : AppState :=
  { s with logs := s.logs ++ [m] }

/-- `hidePreview()`. -/
def hidePreview (s : AppState) : AppState := { s with previewActive := false }

/-- JS `Math.round` (round half toward positive infinity). -/
def jsRound (q : ℚ) : ℤ := Int.floor (q + 1/2)

/-- `updateProgress(value)` — activates the wrapper and renders the value
as-is into the bar width and the rounded value into the text. -/
def updateProgress (v : ℚ) (s : AppState) : AppState :=
  { s with progressWrapperActive := true
         , progressWidth := some v
         , progressText := toString (jsRound v) ++ "%" }

/-- A parsed `/api/generate`-style response body
(`{success, caption_title?, cover_title?, images?, error?}`). -/
structure GenResponse where
  caption_title : Option String
  cover_title : Option String
  images : Option (List String)
  error : Option String
deriving DecidableEq, Repr

/-- `showPreview(data)` — renders title, cover-title line and carousel with
`|| ''` / `|| []` fallbacks, re-arms the publish button, activates the panel. -/
def showPreview (d : GenResponse) (s : AppState) : AppState :=
  { s with previewTitle := d.caption_title.getD ""
         , previewSubtitle := "封面标题: " ++ replaceNewlineSep (d.cover_title.getD "")
         , carousel := d.images.getD []
         , btnPublishDisabled := false
         , btnPublishLabel := publishDefaultLabel
         , previewActive := true }

/-! ### Job submission handlers

Each `async function handleX` is embedded as a function of the network
outcome: `success d` is `resp.ok && data.success` with parsed body `d`,
`failure e` is a completed call with `!resp.ok || !data.success` and
`data.error = e`, `threw` is a rejected `fetch` (caught by `catch`). -/

/-- Network outcome of one `fetch` + `resp.json()` round trip. -/
inductive Outcome
  | success (d : GenResponse)
  | failure (e : Option String)
  | threw
deriving DecidableEq, Repr

/-- `getConfig()` output: the composed job request (url already trimmed). -/
structure JobRequest where
  url : String
  model : String
  template : String
  prompt_style : String
deriving DecidableEq, Repr

/-- One run of a submission handler: whether the network call was issued,
the state at the moment the call was in flight, and the final state. -/
structure SubmitRun where
  didFetch : Bool
  preFetch : AppState
  final : AppState
deriving DecidableEq, Repr

/-- `handleManual()` (`src/api/static/app.js` lines 131–165). -/
def handleManual (cfg : JobRequest) (o : Outcome) (s : AppState) : SubmitRun :=
  if cfg.url = "" then
    { didFetch := false, preFetch := s
    , final := showToast "⚠️ 请先输入文章链接" s }
  else
    let s5 := appendLog "📱 手动模式启动..."
      (clearLogs (hidePreview (showLogPanel (setProcessing true s))))
    let afterNet :=
      match o with
      | .success d => showToast "✅ 生成完成，请预览确认" (showPreview d s5)
      | .failure e => showToast ("❌ " ++ jsOr e "生成失败") s5
      | .threw => showToast "❌ 请求失败，请检查后端是否运行" s5
    { didFetch := true, preFetch := s5, final := setProcessing false afterNet }

/-- `handleAuto()` (`src/api/static/app.js` lines 168–205).  The
`confirmed` argument is the return value of the blocking `confirm(...)`. -/
def handleAuto (cfg : JobRequest) (confirmed : Bool) (o : Outcome)
    (s : AppState) : SubmitRun :=
  if cfg.url = "" then
    { didFetch := false, preFetch := s
    , final := showToast "⚠️ 请先输入文章链接" s }
  else if !confirmed then
    { didFetch := false, preFetch := s, final := s }
  else
    let s5 := appendLog "🤖 自动发布模式启动..."
      (clearLogs (hidePreview (showLogPanel (setProcessing true s))))
    let afterNet :=
      match o with
      | .success _ => showToast "✅ 自动发布成功！" s5
      | .failure e => showToast ("❌ " ++ jsOr e "发布失败") s5
      | .threw => showToast "❌ 请求失败" s5
    { didFetch := true, preFetch := s5, final := setProcessing false afterNet }

/-- Spinner label shown on the publish button while the call is in flight. -/
def publishSpinnerLabel : String := "<span class=\"spinner\"></span> 发布中..."

/-- `handlePublish()` (`src/api/static/app.js` lines 208–237).  Note: it
never touches `isProcessing`, and only the failure and catch paths
re-enable the button — success leaves it disabled with a done label. -/
def handlePublish (confirmed : Bool) (o : Outcome) (s : AppState) : SubmitRun :=
  if !confirmed then
    { didFetch := false, preFetch := s, final := s }
  else
    let s1 := { s with btnPublishDisabled := true
                     , btnPublishLabel := publishSpinnerLabel }
    match o with
    | .success _ =>
        { didFetch := true, preFetch := s1
        , final := { showToast "✅ 发布成功！" s1 with
                       btnPublishLabel := "✅ 已发布" } }
    | .failure e =>
        { didFetch := true, preFetch := s1
        , final := { showToast ("❌ " ++ jsOr e "发布失败") s1 with
                       btnPublishLabel := publishDefaultLabel
                     , btnPublishDisabled := false } }
    | .threw =>
        { didFetch := true, preFetch := s1
        , final := { showToast "❌ 请求失败" s1 with
                       btnPublishLabel := publishDefaultLabel
                     , btnPublishDisabled := false } }

end App

/-! ## Cloud-variant trigger (`src/docs/app.js` lines 78–132) -/

namespace Cloud

structure CloudState where
  store : Store
  urlInput : String
  modelSel : String
  templateSel : String
  promptSel : String
  btnTriggerDisabled : Bool
  btnTriggerLabel : String
  statusMsg : String
  settingsOpen : Bool
  arrowGlyph : String
  toasts : List String
deriving DecidableEq, Repr

/-- Network outcome of the dispatch `fetch`:  `ok` is any 2xx, `httpError`
a completed non-2xx whose JSON body carries `message`, `threw` a rejection. -/
inductive CloudOutcome
  | ok
  | httpError (message : Option String) (status : Nat)
  | threw
deriving DecidableEq, Repr

/-- `showToast(msg)` for the cloud page. -/
def cloudToast (m : String) (s : CloudState) : CloudState :=
  { s with toasts := s.toasts ++ [m] }

/-- `showSettings()` — expands the settings panel. -/
def showSettings (s : CloudState) : CloudState :=
  { s with settingsOpen := true, arrowGlyph := "▲" }

/-- Default label of the cloud trigger button (restored in `finally`). -/
def triggerDefaultLabel : String := "<span>🚀</span> <span>触发云端发布</span>"

/-- Delay (ms) before the follow-up `loadRuns` refresh after a 2xx. -/
def REFRESH_DELAY : Nat := 3000

/-- One run of `triggerAction`: whether the dispatch call was issued, the
state while it was in flight, the delay of the scheduled `loadRuns`
refresh (if any), and the final state. -/
structure TriggerRun where
  didFetch : Bool
  preFetch : CloudState
  scheduledRefreshDelay : Option Nat
  final : CloudState
deriving DecidableEq, Repr

/-- `triggerAction()` — validates settings then url, disables the button,
posts the dispatch, and restores the button in `finally`. -/
def triggerAction (o : CloudOutcome) (s : CloudState) : TriggerRun :=
  let settings := getSettings s.store
  if settings.repo = "" ∨ settings.pat = "" then
    { didFetch := false, preFetch := s, scheduledRefreshDelay := none
    , final := showSettings (cloudToast "⚠️ 请先配置 Repo 和 PAT" s) }
  else
    let url := jsTrim s.urlInput
    if url = "" then
      { didFetch := false, preFetch := s, scheduledRefreshDelay := none
      , final := cloudToast "⚠️ 请输入文章链接" s }
    else
      let s1 := { s with btnTriggerDisabled := true
                       , btnTriggerLabel := "🚀 发送指令..." }
      let afterNet : CloudState × Option Nat :=
        match o with
        | .ok =>
            ({ cloudToast "✅ 指令已发送！Actions 即将开始" s1 with
                 statusMsg := "✅ 指令已发送，请等待下方列表刷新..." }
            , some REFRESH_DELAY)
        | .httpError msg status =>
            ({ cloudToast ("❌ 发送失败: " ++ jsOr msg (toString status)) s1 with
                 statusMsg := "❌ 错误: " ++ jsStr msg }
            , none)
        | .threw => (cloudToast "❌ 网络错误" s1, none)
      { didFetch := true, preFetch := s1
      , scheduledRefreshDelay := afterNet.2
      , final := { afterNet.1 with btnTriggerDisabled := false
                                 , btnTriggerLabel := triggerDefaultLabel } }

end Cloud

/-! ## Session Controller (`src/api/static/app.js` lines 66–105)

`connectWebSocket` installs `onopen` / `onclose` handlers on a fresh socket
and `onclose` re-arms via `setTimeout(connectWebSocket, 3000)`.  The
reconnect loop is embedded as a step relation: a socket fires `close` at
most once (so `closed` is enabled only while the current socket is not yet
closed) and the 3000 ms timer, once fired, calls `connectWebSocket` again. -/

namespace Session

/-- The spec's ConnectionState enum. -/
inductive ConnState
  | Connecting
  | Open
  | Closed
deriving DecidableEq, Repr

/-- `setTimeout(connectWebSocket, 3000)` delay in `ws.onclose`. -/
def RECONNECT_DELAY : Nat := 3000

/-- `setInterval` heartbeat period. -/
def HEARTBEAT_INTERVAL : Nat := 30000

/-- Connection state plus the delays of the pending reconnect timers. -/
structure SessState where
  conn : ConnState
  pendingReconnect : List Nat
deriving DecidableEq, Repr

/-- Events the reconnect loop reacts to. -/
inductive WsEvent
  | opened
  | closed
  | reconnectTimerFires
deriving DecidableEq, Repr

/-- One step of the reconnect loop.  `opened` is the current socket's
handshake completing; `closed` is its (unique) close event, which schedules
one fixed-delay timer; `reconnectTimerFires` consumes a pending timer and
runs `connectWebSocket`, producing a fresh Connecting socket. -/
def step (s : SessState) : WsEvent → Option SessState
  | .opened =>
      if s.conn = .Connecting then some { s with conn := .Open } else none
  | .closed =>
      if s.conn = .Closed then none
      else some { conn := .Closed
                , pendingReconnect := s.pendingReconnect ++ [RECONNECT_DELAY] }
  | .reconnectTimerFires =>
      match s.pendingReconnect with
      | [] => none
      | _ :: rest => some { conn := .Connecting, pendingReconnect := rest }

/-- States reachable from the initial `connectWebSocket()` call. -/
inductive Reachable : SessState → Prop
  | init : Reachable ⟨.Connecting, []⟩
  | next : ∀ {s s' : SessState} {e : WsEvent},
      Reachable s → step s e = some s' → Reachable s'

/-- JS `WebSocket.readyState` values. -/
inductive ReadyState
  | CONNECTING
  | OPEN
  | CLOSING
  | CLOSED
deriving DecidableEq, Repr

/-- The slice of a `WebSocket` object the heartbeat callback reads. -/
structure WsRef where
  readyState : ReadyState
deriving DecidableEq, Repr

/-- The transport readyState corresponding to each ConnectionState. -/
def readyOf : ConnState → ReadyState
  | .Connecting => .CONNECTING
  | .Open => .OPEN
  | .Closed => .CLOSED

/-- The heartbeat `setInterval` callback: sends the literal `ping` only when
a socket exists and its readyState is OPEN. -/
def heartbeatTick : Option WsRef → Option String
  | none => none
  | some w => if w.readyState = .OPEN then some "ping" else none

end Session

/-! ## Resource Cache — backend variant (`src/api/static/sw.js`) -/

namespace SW

/-- Cache generation identifier. -/
def CACHE_NAME : String := "xhs-publisher-v1"

/-- The fixed install-time manifest. -/
def URLS_TO_CACHE : List String :=
  ["/", "/static/style.css", "/static/app.js", "/static/manifest.json"]

/-- Where the response served for a request came from. -/
inductive FetchResult
  | passthrough
  | fromCache (body : String)
  | fromNetwork (body : String)
  | networkFail
deriving DecidableEq, Repr

/-- The cache contents after a successful `install` event: `cache.addAll`
stores the install-time network response for exactly the manifest URLs. -/
def cacheAtInstall (netI : String → Option String) : String → Option String :=
  fun u => if u ∈ URLS_TO_CACHE then netI u else none

/-- The `fetch` listener: requests whose URL contains `/api/` or `/ws/` are
not intercepted (browser default network handling); everything else is
answered cache-first with network fallback.  The returned cache is the
input cache — the handler never writes to it. -/
def handleFetch (cache netF : String → Option String) (url : String) :
    FetchResult × (String → Option String) :=
  if hasSub url "/api/" || hasSub url "/ws/" then
    (.passthrough, cache)
  else
    match cache url with
    | some b => (.fromCache b, cache)
    | none =>
        match netF url with
        | some b => (.fromNetwork b, cache)
        | none => (.networkFail, cache)

end SW

/-! ## Resource Cache — cloud variant (`src/docs/sw.js`) -/

namespace DocsSW

/-- The fixed install-time manifest of the cloud variant. -/
def URLS_TO_CACHE : List String :=
  ["./", "./index.html", "./style.css", "./app.js", "./manifest.json",
   "./icon-192.png", "./icon-512.png"]

/-- The cloud variant's `fetch` listener: only `api.github.com` requests
are passed through; everything else is cache-first. -/
def handleFetch (cache netF : String → Option String) (url : String) :
    SW.FetchResult × (String → Option String) :=
  if hasSub url "api.github.com" then
    (.passthrough, cache)
  else
    match cache url with
    | some b => (.fromCache b, cache)
    | none =>
        match netF url with
        | some b => (.fromNetwork b, cache)
        | none => (.networkFail, cache)

end DocsSW

/-! ## Inbound frame dispatch (`src/api/static/app.js` lines 77–85) -/

namespace App

/-- An inbound WebSocket frame after `JSON.parse`, tagged by `type`. -/
inductive Frame
  | log (message : String)
  | progress (value : ℚ)
  | other (tag : String)
deriving DecidableEq, Repr

/-- The `ws.onmessage` dispatch: `log` appends the message, `progress`
updates the bar, any other tag falls through both branches unchanged. -/
def onMessage (f : Frame) (s : AppState) : AppState :=
  match f with
  | .log m => appendLog m s
  | .progress v => updateProgress v s
  | .other _ => s

/-- Modelled from the spec's words (for comparison with `updateProgress`):
the progress value "clamped to the range 0–100". -/
def clampedValue (v : ℚ) : ℚ := min 100 (max 0 v)

/-! ### Concrete fixtures -/

/-- A concrete quiescent backend-variant UI state, used as a test fixture
by witnesses and counterexamples. -/
def s0 : AppState :=
  { isProcessing := false
  , btnManualDisabled := false
  , btnAutoDisabled := false
  , btnManualLabel := manualDefaultLabel
  , btnAutoLabel := autoDefaultLabel
  , btnPublishDisabled := false
  , btnPublishLabel := publishDefaultLabel
  , progressWrapperActive := false
  , logPanelActive := false
  , previewActive := false
  , previewTitle := ""
  , previewSubtitle := ""
  , carousel := []
  , logs := []
  , progressWidth := none
  , progressText := "0%"
  , toasts := [] }

/-- A concrete job request with a non-empty url. -/
def cfg0 : JobRequest :=
  { url := "https://example.com/a", model := "m1"
  , template := "t1", prompt_style := "p1" }

/-- A generate response with every optional artifact field absent. -/
def g0 : GenResponse :=
  { caption_title := none, cover_title := none, images := none, error := none }

end App

namespace Cloud

/-- A concrete cloud-variant state with both settings present and a
non-empty url, used as a fixture. -/
def cs0 : CloudState :=
  { store := { xhs_repo := some "owner/repo", xhs_pat := some "tok" }
  , urlInput := "https://example.com/a"
  , modelSel := "m1", templateSel := "t1", promptSel := "p1"
  , btnTriggerDisabled := false
  , btnTriggerLabel := triggerDefaultLabel
  , statusMsg := ""
  , settingsOpen := false
  , arrowGlyph := "▼"
  , toasts := [] }

/-- The same fixture with the PAT missing and an empty url. -/
def cs1 : CloudState :=
  { cs0 with store := { xhs_repo := some "owner/repo", xhs_pat := none }
           , urlInput := "" }

/-- The settings-present fixture with an empty (whitespace) url. -/
def cs2 : CloudState := { cs0 with urlInput := "  " }

end Cloud

/-! ## Claim theorems -/

/-- C7: every call to `showPreview` leaves the publish control enabled and
showing its default label and activates the preview panel — in particular
when applied after a prior successful `handlePublish`, which had left the
button terminally disabled, so each new preview re-arms a fresh publish
decision. -/
theorem C7_showPreview_rearms (d d' : App.GenResponse) (s : App.AppState) :
    ((App.showPreview d s).btnPublishDisabled = false
      ∧ (App.showPreview d s).btnPublishLabel = App.publishDefaultLabel
      ∧ (App.showPreview d s).previewActive = true)
  ∧ ((App.handlePublish true (.success d') s).final.btnPublishDisabled = true
      ∧ (App.showPreview d
           ((App.handlePublish true (.success d') s).final)).btnPublishDisabled
          = false
      ∧ (App.showPreview d
           ((App.handlePublish true (.success d') s).final)).btnPublishLabel
          = App.publishDefaultLabel) :=
  ⟨⟨rfl, rfl, rfl⟩, rfl, rfl, rfl⟩

/-- C9: `saveSettings` writes each key exactly when the corresponding input
is non-empty after trimming and leaves it untouched otherwise (so saving
with one field empty never overwrites that field's stored value), and
`getSettings` reads the persisted values with empty-string defaults. -/
theorem C9_settings_selective_write (r p : String) (st : Cloud.Store) :
    ((Cloud.saveSettings r p st).store.xhs_repo
        = if jsTrim r = "" then st.xhs_repo else some (jsTrim r))
  ∧ ((Cloud.saveSettings r p st).store.xhs_pat
        = if jsTrim p = "" then st.xhs_pat else some (jsTrim p))
  ∧ (Cloud.getSettings st).repo = st.xhs_repo.getD ""
  ∧ (Cloud.getSettings st).pat = st.xhs_pat.getD "" := by
  refine ⟨?_, ?_, rfl, rfl⟩ <;>
    simp only [Cloud.saveSettings] <;> split_ifs <;> rfl

/-- C10: `showPreview` is total on partially missing artifacts: an absent
`caption_title`, `cover_title` or `images` field renders as an empty title,
an empty cover-title suffix, or an empty carousel respectively, while the
panel is still activated and the publish button re-armed. -/
theorem C10_showPreview_total (d : App.GenResponse) (s : App.AppState) :
    (d.caption_title = none → (App.showPreview d s).previewTitle = "")
  ∧ (d.cover_title = none → (App.showPreview d s).previewSubtitle = "封面标题: ")
  ∧ (d.images = none → (App.showPreview d s).carousel = [])
  ∧ (App.showPreview d s).previewActive = true
  ∧ (App.showPreview d s).btnPublishDisabled = false
  ∧ (App.showPreview d s).btnPublishLabel = App.publishDefaultLabel := by
  refine ⟨?_, ?_, ?_, rfl, rfl, rfl⟩ <;> intro h <;>
    simp [App.showPreview, h, replaceNewlineSep]

/-- Witness for C10 at the all-absent response and the quiescent state. -/
theorem C10_showPreview_total_witness :
    App.g0.caption_title = none
  ∧ (App.showPreview App.g0 App.s0).previewTitle = ""
  ∧ (App.showPreview App.g0 App.s0).previewSubtitle = "封面标题: "
  ∧ (App.showPreview App.g0 App.s0).carousel = [] :=
  ⟨rfl
  , (C10_showPreview_total App.g0 App.s0).1 rfl
  , (C10_showPreview_total App.g0 App.s0).2.1 rfl
  , (C10_showPreview_total App.g0 App.s0).2.2.1 rfl⟩

/-- C8 fails as stated: a `progress` frame carrying 150 is rendered with
bar width 150, not the claimed clamp to the 0–100 range (which would be
100) — `updateProgress` applies no clamping. -/
theorem C8_progress_not_clamped :
    (App.onMessage (.progress 150) App.s0).progressWidth = some 150
  ∧ App.clampedValue 150 = 100
  ∧ (App.onMessage (.progress 150) App.s0).progressWidth
      ≠ some (App.clampedValue 150) := by
  refine ⟨rfl, ?_, ?_⟩
  · norm_num [App.clampedValue]
  · norm_num [App.clampedValue, App.onMessage, App.updateProgress]

/-- C8 (amended): a `log` frame appends its message verbatim to the log
sequence, a `progress` frame renders the carried value as-is (no clamping)
as the bar width with the rounded value as the text, and a frame of any
other type is silently ignored. -/
theorem C8_frame_dispatch (m t : String) (v : ℚ) (s : App.AppState) :
    App.onMessage (.log m) s = { s with logs := s.logs ++ [m] }
  ∧ (App.onMessage (.progress v) s).progressWidth = some v
  ∧ (App.onMessage (.progress v) s).progressText
      = toString (App.jsRound v) ++ "%"
  ∧ (App.onMessage (.progress v) s).progressWrapperActive = true
  ∧ App.onMessage (.other t) s = s :=
  ⟨rfl, rfl, rfl, rfl, rfl⟩

/-- C1 fails as stated: for the confirmPublish kind, ProcessingFlag is not
true while the network call is in flight (the handler never touches it),
and the success exit leaves the publish button disabled instead of
re-enabling the triggering control. -/
theorem C1_confirmPublish_no_flag :
    (App.handlePublish true (.success App.g0) App.s0).preFetch.isProcessing
      = false
  ∧ (App.handlePublish true (.success App.g0) App.s0).final.btnPublishDisabled
      = true :=
  ⟨rfl, rfl⟩

/-- C1 (amended): manualGenerate and autoPublish set ProcessingFlag true
strictly between submit-start and submit-end and reset it to false with
the manual/auto controls re-enabled on every exit path (success,
application-level rejection, or thrown network call), as by a finally
block.  cloudDispatch and confirmPublish never touch ProcessingFlag:
cloudDispatch disables only its trigger button and unconditionally
re-enables it in a finally block, while confirmPublish disables the
publish button and re-enables it on rejection and transport failure but
leaves it terminally disabled on success. -/
theorem C1_processing_flag (cfg : App.JobRequest) (o : App.Outcome)
    (d : App.GenResponse) (co : Cloud.CloudOutcome)
    (s : App.AppState) (cs : Cloud.CloudState)
    (hurl : cfg.url ≠ "")
    (hrepo : (Cloud.getSettings cs.store).repo ≠ "")
    (hpat : (Cloud.getSettings cs.store).pat ≠ "")
    (hcurl : jsTrim cs.urlInput ≠ "") :
    ((App.handleManual cfg o s).preFetch.isProcessing = true
      ∧ (App.handleManual cfg o s).final.isProcessing = false
      ∧ (App.handleManual cfg o s).final.btnManualDisabled = false
      ∧ (App.handleManual cfg o s).final.btnAutoDisabled = false)
  ∧ ((App.handleAuto cfg true o s).preFetch.isProcessing = true
      ∧ (App.handleAuto cfg true o s).final.isProcessing = false
      ∧ (App.handleAuto cfg true o s).final.btnManualDisabled = false
      ∧ (App.handleAuto cfg true o s).final.btnAutoDisabled = false)
  ∧ ((App.handlePublish true o s).preFetch.isProcessing = s.isProcessing
      ∧ (App.handlePublish true o s).final.isProcessing = s.isProcessing
      ∧ (App.handlePublish true (.success d) s).final.btnPublishDisabled = true
      ∧ (App.handlePublish true (.failure d.error) s).final.btnPublishDisabled
          = false
      ∧ (App.handlePublish true .threw s).final.btnPublishDisabled = false)
  ∧ ((Cloud.triggerAction co cs).preFetch.btnTriggerDisabled = true
      ∧ (Cloud.triggerAction co cs).final.btnTriggerDisabled = false
      ∧ (Cloud.triggerAction co cs).final.btnTriggerLabel
          = Cloud.triggerDefaultLabel) := by
  refine ⟨?_, ?_, ?_, ?_⟩
  · cases o <;>
      simp [App.handleManual, hurl, App.setProcessing, App.showToast,
        App.showLogPanel, App.clearLogs, App.appendLog, App.hidePreview,
        App.showPreview]
  · cases o <;>
      simp [App.handleAuto, hurl, App.setProcessing, App.showToast,
        App.showLogPanel, App.clearLogs, App.appendLog, App.hidePreview]
  · cases o <;> simp [App.handlePublish, App.showToast]
  · simp only [Cloud.getSettings] at hrepo hpat
    cases co <;>
      simp [Cloud.triggerAction, Cloud.getSettings, hrepo, hpat, hcurl,
        Cloud.cloudToast, Cloud.showSettings]

/-- Witness for C1 (amended): a thrown network call on each kind, started
from the concrete quiescent fixtures. -/
theorem C1_processing_flag_witness :
    (App.handleManual App.cfg0 .threw App.s0).preFetch.isProcessing = true
  ∧ (App.handleManual App.cfg0 .threw App.s0).final.isProcessing = false
  ∧ (App.handleAuto App.cfg0 true .threw App.s0).final.isProcessing = false
  ∧ (Cloud.triggerAction .threw Cloud.cs0).final.btnTriggerDisabled = false :=
  have h := C1_processing_flag App.cfg0 .threw App.g0 .threw App.s0 Cloud.cs0
    (by decide) (by decide) (by decide) (by decide)
  ⟨h.1.1, h.1.2.1, h.2.1.2.1, h.2.2.2.2.1⟩

/-- C5: autoPublish and confirmPublish issue their network call only after
the interactive `confirm` gate — when it is declined no call is made and
the state is returned unchanged — while cloudDispatch fires with no
confirmation step at all once its validation passes. -/
theorem C5_confirmation_gate (cfg : App.JobRequest) (o : App.Outcome)
    (co : Cloud.CloudOutcome) (s : App.AppState) (cs : Cloud.CloudState)
    (hurl : cfg.url ≠ "")
    (hrepo : (Cloud.getSettings cs.store).repo ≠ "")
    (hpat : (Cloud.getSettings cs.store).pat ≠ "")
    (hcurl : jsTrim cs.urlInput ≠ "") :
    ((App.handleAuto cfg false o s).didFetch = false
      ∧ (App.handleAuto cfg false o s).final = s)
  ∧ ((App.handlePublish false o s).didFetch = false
      ∧ (App.handlePublish false o s).final = s)
  ∧ (Cloud.triggerAction co cs).didFetch = true := by
  refine ⟨⟨?_, ?_⟩, ⟨rfl, rfl⟩, ?_⟩
  · simp [App.handleAuto, hurl]
  · simp [App.handleAuto, hurl]
  · simp only [Cloud.getSettings] at hrepo hpat
    cases co <;> simp [Cloud.triggerAction, Cloud.getSettings, hrepo, hpat, hcurl]

/-- Witness for C5: a declined confirmation at the concrete fixtures, and
the cloud trigger firing without one. -/
theorem C5_confirmation_gate_witness :
    (App.handleAuto App.cfg0 false .threw App.s0).didFetch = false
  ∧ (App.handlePublish false .threw App.s0).final = App.s0
  ∧ (Cloud.triggerAction .ok Cloud.cs0).didFetch = true :=
  have h := C5_confirmation_gate App.cfg0 .threw .ok App.s0 Cloud.cs0
    (by decide) (by decide) (by decide) (by decide)
  ⟨h.1.1, h.2.1.2, h.2.2⟩

/-- C6: an empty-url submission, and a cloudDispatch with a missing
settings field, fail fast before any network call: the transient notice is
shown and nothing else in the state changes (in particular ProcessingFlag
stays as it was and the controls stay enabled); the missing-settings path
additionally surfaces the settings panel, which is the only part of the
state it touches besides the notice. -/
theorem C6_validation_failfast (cfg : App.JobRequest) (confirmed : Bool)
    (o : App.Outcome) (co : Cloud.CloudOutcome) (s : App.AppState)
    (cs cs' : Cloud.CloudState)
    (hurl : cfg.url = "")
    (hset : (Cloud.getSettings cs.store).repo ≠ ""
              ∧ (Cloud.getSettings cs.store).pat ≠ "")
    (hcurl : jsTrim cs.urlInput = "")
    (hmiss : (Cloud.getSettings cs'.store).repo = ""
               ∨ (Cloud.getSettings cs'.store).pat = "") :
    ((App.handleManual cfg o s).didFetch = false
      ∧ (App.handleManual cfg o s).final = App.showToast "⚠️ 请先输入文章链接" s
      ∧ (App.handleManual cfg o s).final.isProcessing = s.isProcessing)
  ∧ ((App.handleAuto cfg confirmed o s).didFetch = false
      ∧ (App.handleAuto cfg confirmed o s).final
          = App.showToast "⚠️ 请先输入文章链接" s)
  ∧ ((Cloud.triggerAction co cs).didFetch = false
      ∧ (Cloud.triggerAction co cs).final
          = Cloud.cloudToast "⚠️ 请输入文章链接" cs)
  ∧ ((Cloud.triggerAction co cs').didFetch = false
      ∧ (Cloud.triggerAction co cs').final
          = Cloud.showSettings (Cloud.cloudToast "⚠️ 请先配置 Repo 和 PAT" cs')
      ∧ (Cloud.triggerAction co cs').final.btnTriggerDisabled
          = cs'.btnTriggerDisabled
      ∧ (Cloud.triggerAction co cs').final.store = cs'.store) := by
  obtain ⟨hrepo, hpat⟩ := hset
  simp only [Cloud.getSettings] at hrepo hpat
  refine ⟨?_, ?_, ?_, ?_⟩
  · simp [App.handleManual, hurl, App.showToast]
  · simp [App.handleAuto, hurl, App.showToast]
  · cases co <;> simp [Cloud.triggerAction, Cloud.getSettings, hrepo, hpat, hcurl]
  · rcases hmiss with hm | hm <;>
      simp only [Cloud.getSettings] at hm <;>
      cases co <;>
      simp [Cloud.triggerAction, Cloud.getSettings, hm, Cloud.showSettings,
        Cloud.cloudToast]

/-- Witness for C6: the empty-url fixture and the missing-PAT fixture. -/
theorem C6_validation_failfast_witness :
    (App.handleManual { App.cfg0 with url := "" } .threw App.s0).didFetch = false
  ∧ (Cloud.triggerAction .ok Cloud.cs2).didFetch = false
  ∧ (Cloud.triggerAction .ok Cloud.cs1).didFetch = false :=
  have h := C6_validation_failfast { App.cfg0 with url := "" } true .threw .ok
    App.s0 Cloud.cs2 Cloud.cs1 (by decide) ⟨by decide, by decide⟩ (by decide)
    (Or.inr (by decide))
  ⟨h.1.1, h.2.2.1.1, h.2.2.2.1⟩

/-- Invariant of the reconnect loop: a reachable session state either is
Closed with exactly the one fixed-delay timer pending, or is not Closed
with no timer pending. -/
theorem Session.reconnect_inv {s : Session.SessState}
    (h : Session.Reachable s) :
    (s.conn = .Closed ∧ s.pendingReconnect = [Session.RECONNECT_DELAY])
    ∨ (s.conn ≠ .Closed ∧ s.pendingReconnect = []) := by
  induction h with
  | init => exact Or.inr ⟨by decide, rfl⟩
  | @next t t' e _ hstep ih =>
    cases e with
    | opened =>
      simp only [Session.step] at hstep
      split at hstep
      · rename_i hconn
        cases hstep
        rcases ih with ⟨hc, _⟩ | ⟨_, hp⟩
        · rw [hconn] at hc; cases hc
        · refine Or.inr ⟨?_, hp⟩
          show Session.ConnState.Open ≠ Session.ConnState.Closed
          decide
      · cases hstep
    | closed =>
      simp only [Session.step] at hstep
      split at hstep
      · cases hstep
      · rename_i hconn
        cases hstep
        rcases ih with ⟨hc, _⟩ | ⟨_, hp⟩
        · exact absurd hc hconn
        · refine Or.inl ⟨rfl, ?_⟩
          show t.pendingReconnect ++ [Session.RECONNECT_DELAY]
                 = [Session.RECONNECT_DELAY]
          rw [hp]
          rfl
    | reconnectTimerFires =>
      simp only [Session.step] at hstep
      rcases hq : t.pendingReconnect with _ | ⟨d, rest⟩
      · rw [hq] at hstep; cases hstep
      · rw [hq] at hstep
        cases hstep
        rcases ih with ⟨_, hp⟩ | ⟨_, hp⟩
        · rw [hq] at hp
          cases hp
          refine Or.inr ⟨?_, rfl⟩
          show Session.ConnState.Connecting ≠ Session.ConnState.Closed
          decide
        · rw [hq] at hp; cases hp

/-- C3: in every reachable session state at most one reconnect timer is
pending, every pending timer carries exactly the fixed 3000 ms delay, a
Closed state always has exactly the one timer whose firing unconditionally
re-enters Connecting (retry forever, no retry counter exists in the
state), and a non-Closed state has no pending timer while its close event
schedules exactly one fixed-delay timer. -/
theorem C3_reconnect_policy (s : Session.SessState)
    (h : Session.Reachable s) :
    s.pendingReconnect.length ≤ 1
  ∧ (∀ d ∈ s.pendingReconnect, d = Session.RECONNECT_DELAY)
  ∧ Session.RECONNECT_DELAY = 3000
  ∧ (s.conn = .Closed →
       s.pendingReconnect = [Session.RECONNECT_DELAY]
       ∧ Session.step s .reconnectTimerFires
           = some { conn := .Connecting, pendingReconnect := [] })
  ∧ (s.conn ≠ .Closed →
       s.pendingReconnect = []
       ∧ Session.step s .closed
           = some { conn := .Closed
                  , pendingReconnect := [Session.RECONNECT_DELAY] }) := by
  rcases Session.reconnect_inv h with ⟨hc, hp⟩ | ⟨hc, hp⟩
  · refine ⟨by rw [hp]; decide, ?_, rfl, fun _ => ⟨hp, ?_⟩, fun hn => absurd hc hn⟩
    · intro d hd; rw [hp] at hd; simpa using hd
    · simp [Session.step, hp]
  · refine ⟨by rw [hp]; decide, ?_, rfl, fun hcl => absurd hcl hc, fun _ => ⟨hp, ?_⟩⟩
    · intro d hd; rw [hp] at hd; cases hd
    · simp [Session.step, hc, hp]

/-- Witness for C3: the reachable state right after the first close event. -/
theorem C3_reconnect_policy_witness :
    ({ conn := .Closed
     , pendingReconnect := [Session.RECONNECT_DELAY] } :
        Session.SessState).pendingReconnect.length ≤ 1
  ∧ Session.step
      { conn := .Closed, pendingReconnect := [Session.RECONNECT_DELAY] }
      .reconnectTimerFires
      = some { conn := .Connecting, pendingReconnect := [] } :=
  have h := C3_reconnect_policy
    { conn := .Closed, pendingReconnect := [Session.RECONNECT_DELAY] }
    (Session.Reachable.next (e := .closed) Session.Reachable.init (by decide))
  ⟨h.1, (h.2.2.2.1 rfl).2⟩

/-- C4: the heartbeat interval callback sends the literal `ping` exactly
when a socket exists and its readyState is OPEN — every tick in a
non-Open connection state (Connecting, or Closed immediately after a close
transition) sends nothing — and the interval is the fixed 30000 ms. -/
theorem C4_heartbeat_only_open (c : Session.ConnState)
    (w : Option Session.WsRef) :
    (Session.heartbeatTick (some { readyState := Session.readyOf c })
        = if c = .Open then some "ping" else none)
  ∧ Session.heartbeatTick none = none
  ∧ (Session.heartbeatTick w = none
      ∨ (w = some { readyState := .OPEN }
          ∧ Session.heartbeatTick w = some "ping"))
  ∧ Session.HEARTBEAT_INTERVAL = 30000 := by
  refine ⟨?_, rfl, ?_, rfl⟩
  · cases c <;> simp [Session.heartbeatTick, Session.readyOf]
  · cases w with
    | none => exact Or.inl rfl
    | some x =>
      cases x with
      | mk rs => cases rs <;> simp [Session.heartbeatTick]

/-- If a pattern followed by more characters occurs at this position, the
pattern alone occurs at this position. -/
theorem subAt_append_left (p q l : List Char) (h : subAt (p ++ q) l = true) :
    subAt p l = true := by
  induction p generalizing l with
  | nil => rfl
  | cons a as ih =>
    cases l with
    | nil => simp [subAt] at h
    | cons c cs =>
      simp only [List.cons_append, subAt, Bool.and_eq_true] at h ⊢
      exact ⟨h.1, ih cs h.2⟩

/-- If a pattern followed by more characters occurs in a haystack, the
pattern alone occurs in it. -/
theorem hasSubList_append_left (p q l : List Char)
    (h : hasSubList (p ++ q) l = true) : hasSubList p l = true := by
  induction l with
  | nil =>
    cases p with
    | nil => rfl
    | cons a as => simp [hasSubList, subAt] at h
  | cons c cs ih =>
    simp only [hasSubList, Bool.or_eq_true] at h ⊢
    rcases h with h | h
    · exact Or.inl (subAt_append_left _ _ _ h)
    · exact Or.inr (ih h)

/-- A URL containing `/ws/logs` in particular contains `/ws/`, the
substring the service worker's bypass test checks. -/
theorem hasSub_ws_of_ws_logs {url : String}
    (h : hasSub url "/ws/logs" = true) : hasSub url "/ws/" = true := by
  have hsplit : "/ws/logs".toList = "/ws/".toList ++ "logs".toList := by decide
  unfold hasSub at h ⊢
  rw [hsplit] at h
  exact hasSubList_append_left _ _ _ h

/-- C2: a request whose URL is (or ends in) `/ws/logs` or contains `/api/`
is never answered by the backend-variant service worker (network-only
passthrough); a manifest-listed URL whose install-time fetch succeeded is
served from the cache even when the fetch-time network is unavailable; the
fetch handler never writes to the cache (write-once at install); and the
cloud-variant worker likewise passes its API traffic
(`api.github.com`) straight through. -/
theorem C2_resource_cache (url u gurl b : String)
    (netI netF cache : String → Option String)
    (hws : hasSub url "/ws/logs" = true ∨ hasSub url "/api/" = true)
    (hu : u ∈ SW.URLS_TO_CACHE)
    (hinst : netI u = some b)
    (hnet : netF u = none)
    (hgh : hasSub gurl "api.github.com" = true) :
    (SW.handleFetch cache netF url).1 = .passthrough
  ∧ (SW.handleFetch (SW.cacheAtInstall netI) netF u).1 = .fromCache b
  ∧ (∀ url' : String, (SW.handleFetch cache netF url').2 = cache)
  ∧ (DocsSW.handleFetch cache netF gurl).1 = .passthrough := by
  refine ⟨?_, ?_, ?_, ?_⟩
  · rcases hws with h | h
    · have h' := hasSub_ws_of_ws_logs h
      simp [SW.handleFetch, h']
    · simp [SW.handleFetch, h]
  · have hno : ∀ u' ∈ SW.URLS_TO_CACHE,
        (hasSub u' "/api/" || hasSub u' "/ws/") = false := by decide
    simp [SW.handleFetch, hno u hu, SW.cacheAtInstall, hu, hinst]
  · intro url'
    unfold SW.handleFetch
    split
    · rfl
    · rcases h1 : cache url' with _ | b1
      · rcases h2 : netF url' with _ | b2 <;> simp [h1, h2]
      · simp [h1]
  · simp [DocsSW.handleFetch, hgh]

/-- Witness for C2: the live log socket URL, a cached static asset with the
network down, and a GitHub API URL, all concrete. -/
theorem C2_resource_cache_witness :
    (SW.handleFetch (fun _ => none) (fun _ => none) "http://h/ws/logs").1
      = .passthrough
  ∧ (SW.handleFetch (SW.cacheAtInstall (fun _ => some "asset"))
       (fun _ => none) "/static/app.js").1 = .fromCache "asset"
  ∧ (DocsSW.handleFetch (fun _ => none) (fun _ => none)
       "https://api.github.com/repos/o/r/dispatches").1 = .passthrough :=
  have h := C2_resource_cache "http://h/ws/logs" "/static/app.js"
    "https://api.github.com/repos/o/r/dispatches" "asset"
    (fun _ => some "asset") (fun _ => none) (fun _ => none)
    (Or.inl (by decide)) (by decide) rfl rfl (by decide)
  ⟨h.1, h.2.1, h.2.2.2⟩
